import Mathlib

/-!
Shallow embedding of the booking state machine of src/main.py
(classes SchedulingAgent, PatientLookupTool, CalendarManager,
ReminderSystem) together with the slot-selection wrapper in main().

Modelling conventions:
* Python dict-based records become structures with Option fields; a field
  holding none models both an absent key and a key stored with value None
  (the two are distinguishable in Python only through dict.get defaults,
  which no reachable state of the claims exercises).
* The Gemini extractor, the email transport and the Excel writers are
  external collaborators; their outcomes enter as explicit oracle values
  (a failed extraction or a raised exception is the none case, exactly at
  the points where main.py catches it).
* Response texts keep the English sentences of main.py with emoji,
  markdown markers and apostrophes elided.
* datetime.strptime of a YYYY-MM-DD string is modelled by parseDate, which
  yields the proleptic Gregorian ordinal (Python date.toordinal); HH:MM
  times are minutes since midnight.
-/

namespace MedAgent

/-- Python truthiness of an optional string: None and the empty string are
falsy, every other string is truthy. -/
def truthy : Option String → Bool
  | none => false
  | some s => s ≠ ""

/-- Python str.lower (String.toLower, restated structurally so that proofs
can evaluate it). -/
def strLower (s : String) : String := ⟨s.data.map Char.toLower⟩

/-- Splitting a character list at every occurrence of a separator
character; the pieces keep their order and drop the separator. -/
def splitCharAux (sep : Char) : List Char → List Char → List (List Char)
  | [], acc => [acc.reverse]
  | c :: cs, acc =>
    if c == sep then acc.reverse :: splitCharAux sep cs []
    else splitCharAux sep cs (c :: acc)

/-- Python str.split(sep) for a one-character separator (String.splitOn,
restated structurally so that proofs can evaluate it). -/
def splitChar (s : String) (sep : Char) : List String :=
  (splitCharAux sep s.data []).map (fun l => ⟨l⟩)

/-- Numeric value of a decimal digit string. -/
def natOfDigits (l : List Char) : Nat :=
  l.foldl (fun a c => a * 10 + (c.toNat - 48)) 0

/-- Python int(s) for strings of decimal digits (String.toNat?, restated
structurally so that proofs can evaluate it): some value exactly when the
string is nonempty and all digits. -/
def strToNat (s : String) : Option Nat :=
  if s ≠ "" && s.data.all Char.isDigit then some (natOfDigits s.data) else none

/-- The prefix of a character list before the first occurrence of a
separator sequence (the whole list when the separator never occurs). -/
def beforeSep (sep : List Char) : List Char → List Char
  | [] => []
  | c :: cs => if sep.isPrefixOf (c :: cs) then [] else c :: beforeSep sep cs

/-- Python time.split(" - ")[0]: the slot text before the first " - ". -/
def slotStart (s : String) : String := ⟨beforeSep [' ', '-', ' '] s.data⟩

/-- Code point ranges of the Unicode decimal digits (general category Nd,
as in the unicodedata tables of Python 3.11): every range is zero-aligned,
so the decimal value of a character is its offset from the range start.
int() accepts exactly these characters as digits of a base-10 numeral. -/
def decimalRanges : List (Nat × Nat) :=
  [(0x30, 0x39), (0x660, 0x669), (0x6f0, 0x6f9), (0x7c0, 0x7c9),
   (0x966, 0x96f), (0x9e6, 0x9ef), (0xa66, 0xa6f), (0xae6, 0xaef),
   (0xb66, 0xb6f), (0xbe6, 0xbef), (0xc66, 0xc6f), (0xce6, 0xcef),
   (0xd66, 0xd6f), (0xde6, 0xdef), (0xe50, 0xe59), (0xed0, 0xed9),
   (0xf20, 0xf29), (0x1040, 0x1049), (0x1090, 0x1099), (0x17e0, 0x17e9),
   (0x1810, 0x1819), (0x1946, 0x194f), (0x19d0, 0x19d9), (0x1a80, 0x1a89),
   (0x1a90, 0x1a99), (0x1b50, 0x1b59), (0x1bb0, 0x1bb9), (0x1c40, 0x1c49),
   (0x1c50, 0x1c59), (0xa620, 0xa629), (0xa8d0, 0xa8d9), (0xa900, 0xa909),
   (0xa9d0, 0xa9d9), (0xa9f0, 0xa9f9), (0xaa50, 0xaa59), (0xabf0, 0xabf9),
   (0xff10, 0xff19), (0x104a0, 0x104a9), (0x10d30, 0x10d39),
   (0x11066, 0x1106f), (0x110f0, 0x110f9), (0x11136, 0x1113f),
   (0x111d0, 0x111d9), (0x112f0, 0x112f9), (0x11450, 0x11459),
   (0x114d0, 0x114d9), (0x11650, 0x11659), (0x116c0, 0x116c9),
   (0x11730, 0x11739), (0x118e0, 0x118e9), (0x11950, 0x11959),
   (0x11c50, 0x11c59), (0x11d50, 0x11d59), (0x11da0, 0x11da9),
   (0x16a60, 0x16a69), (0x16ac0, 0x16ac9), (0x16b50, 0x16b59),
   (0x1d7ce, 0x1d7d7), (0x1d7d8, 0x1d7e1), (0x1d7e2, 0x1d7eb),
   (0x1d7ec, 0x1d7f5), (0x1d7f6, 0x1d7ff), (0x1e140, 0x1e149),
   (0x1e2f0, 0x1e2f9), (0x1e950, 0x1e959), (0x1fbf0, 0x1fbf9)]

/-- Code point ranges of the characters with Unicode Numeric_Type=Digit
but no decimal value (superscripts, subscripts, circled digits, ...):
str.isdigit accepts them but int() raises ValueError on them. -/
def digitOnlyRanges : List (Nat × Nat) :=
  [(0xb2, 0xb3), (0xb9, 0xb9), (0x1369, 0x1371), (0x19da, 0x19da),
   (0x2070, 0x2070), (0x2074, 0x2079), (0x2080, 0x2089), (0x2460, 0x2468),
   (0x2474, 0x247c), (0x2488, 0x2490), (0x24ea, 0x24ea), (0x24f5, 0x24fd),
   (0x24ff, 0x24ff), (0x2776, 0x277e), (0x2780, 0x2788), (0x278a, 0x2792),
   (0x10a40, 0x10a43), (0x10e60, 0x10e68), (0x11052, 0x1105a),
   (0x1f100, 0x1f10a)]

/-- A character int() accepts as a base-10 digit (Unicode Nd). -/
def isDecimalChar (c : Char) : Bool :=
  decimalRanges.any (fun p => p.1 ≤ c.toNat && c.toNat ≤ p.2)

/-- A character Python str.isdigit classifies as a digit: decimal digits
plus the digit-typed characters without a decimal value. -/
def isDigitCharPy (c : Char) : Bool :=
  isDecimalChar c || digitOnlyRanges.any (fun p => p.1 ≤ c.toNat && c.toNat ≤ p.2)

/-- The decimal value of a decimal digit character (0 elsewhere). -/
def decimalValChar (c : Char) : Nat :=
  match decimalRanges.find? (fun p => p.1 ≤ c.toNat && c.toNat ≤ p.2) with
  | some p => c.toNat - p.1
  | none => 0

/-- Python str.isdigit: nonempty and every character of Numeric_Type
Decimal or Digit (so also true for superscripts such as U+00B2, which
int() nevertheless rejects). -/
def pyIsdigit (s : String) : Bool := s ≠ "" && s.data.all isDigitCharPy

/-- Python int(s) for the sign-free, space-free tokens the slot
interception passes it: the base-10 value when every character is a
decimal digit of any script, none for the ValueError raised otherwise
(for example on digit-classified characters without a decimal value). -/
def pyInt (s : String) : Option Nat :=
  if s ≠ "" && s.data.all isDecimalChar then
    some (s.data.foldl (fun a c => a * 10 + decimalValChar c) 0)
  else none

/-- Leap year test of the Gregorian calendar. -/
def isLeap (y : Nat) : Bool := (y % 4 == 0 && y % 100 != 0) || (y % 400 == 0)

/-- Month lengths of a year, depending on leapness. -/
def monthDays (leap : Bool) : List Nat :=
  [31, if leap then 29 else 28, 31, 30, 31, 30, 31, 31, 30, 31, 30, 31]

/-- Days of year y strictly before month m (1-based). -/
def daysBeforeMonth (y m : Nat) : Nat :=
  ((monthDays (isLeap y)).take (m - 1)).foldl Nat.add 0

/-- Proleptic Gregorian ordinal of a civil date, as Python date.toordinal:
day 1 is 0001-01-01. -/
def ordinalOfYMD (y m d : Nat) : Nat :=
  365 * (y - 1) + (y - 1) / 4 - (y - 1) / 100 + (y - 1) / 400 + daysBeforeMonth y m + d

/-- datetime.strptime(s, percent-Y-m-d) as main.py uses it: three dash
separated numeric fields forming a valid civil date; the result is the
ordinal day. none models the raised ValueError. -/
def parseDate (s : String) : Option Nat :=
  match splitChar s '-' with
  | [ys, ms, ds] =>
    match strToNat ys, strToNat ms, strToNat ds with
    | some y, some m, some d =>
      if 1 ≤ ys.length && ys.length ≤ 4 && 1 ≤ ms.length && ms.length ≤ 2 &&
         1 ≤ ds.length && ds.length ≤ 2 && 1 ≤ y && 1 ≤ m && m ≤ 12 &&
         1 ≤ d && d ≤ (monthDays (isLeap y)).getD (m - 1) 0 then
        some (ordinalOfYMD y m d)
      else none
    | _, _, _ => none
  | _ => none

/-- Weekday names as strftime percent-A lowercased produces them. -/
def dayNames : List String :=
  ["monday", "tuesday", "wednesday", "thursday", "friday", "saturday", "sunday"]

/-- Lowercased weekday name of an ordinal day; ordinal 1 (0001-01-01) is a
Monday, matching Python. -/
def dayNameOf (ord : Nat) : String := dayNames.getD ((ord + 6) % 7) ""

/-- datetime.strptime(s, percent-H-M): minutes since midnight, or none for
the raised ValueError. -/
def parseHM (s : String) : Option Nat :=
  match splitChar s ':' with
  | [hs, ms] =>
    match strToNat hs, strToNat ms with
    | some h, some m =>
      if 1 ≤ hs.length && hs.length ≤ 2 && 1 ≤ ms.length && ms.length ≤ 2 &&
         h ≤ 23 && m ≤ 59 then
        some (h * 60 + m)
      else none
    | _, _ => none
  | _ => none

/-- strftime percent-H-M of a minute count, wrapping past midnight. -/
def formatHM (totalMin : Nat) : String :=
  let t := totalMin % 1440
  let h := t / 60
  let m := t % 60
  (if h < 10 then "0" ++ toString h else toString h) ++ ":" ++
    (if m < 10 then "0" ++ toString m else toString m)

/-- CalendarManager._add_minutes: parse HH:MM, add the minutes and render
HH:MM again; on a parse failure return the input unchanged. -/
def add_minutes (time_str : String) (minutes : Nat) : String :=
  match parseHM time_str with
  | some t => formatHM (t + minutes)
  | none => time_str

/-! ## Data model: session state of st.session_state in main.py -/

/-- The current_patient dict: fields written by the greeting extraction,
the directory merge and the insurance step. -/
structure Patient where
  name : Option String := none
  dob : Option String := none
  doctor : Option String := none
  location : Option String := none
  patient_id : Option String := none
  first_name : Option String := none
  last_name : Option String := none
  phone : Option String := none
  email : Option String := none
  insurance_company : Option String := none
  member_id : Option String := none
  is_returning : Option Bool := none
  deriving DecidableEq, Repr

/-- The appointment_data dict written at the scheduling stage and by the
slot-selection wrapper. -/
structure Appointment where
  date : Option String := none
  doctor : Option String := none
  duration : Option Nat := none
  available_slots : List String := []
  selected_slot : Option String := none
  deriving DecidableEq, Repr

/-- Conversation session: stage string plus the two accumulated dicts. -/
structure SessionState where
  stage : String := "greeting"
  current_patient : Patient := {}
  appointment_data : Appointment := {}
  deriving DecidableEq, Repr

/-- The stage strings the program ever assigns. -/
def validStages : List String :=
  ["greeting", "patient_lookup", "scheduling", "insurance", "confirmation"]

/-! ## Patient directory (PatientLookupTool) -/

/-- One row of the patients table (patients.csv or the hardcoded fallback
frame of PatientLookupTool.__init__). -/
structure PatientRow where
  patient_id : String
  first_name : String
  last_name : String
  dob : String
  phone : String
  email : String
  insurance_company : String
  member_id : String
  is_returning : Bool
  deriving DecidableEq, Repr

/-- The fallback table built when patients.csv is missing. -/
def fallbackPatients : List PatientRow :=
  [{ patient_id := "P0001", first_name := "John", last_name := "Doe",
     dob := "1990-01-01", phone := "+919876543210", email := "john@example.com",
     insurance_company := "Max Bupa", member_id := "MB123", is_returning := true },
   { patient_id := "P0002", first_name := "Jane", last_name := "Smith",
     dob := "1985-05-15", phone := "+919876543211", email := "jane@example.com",
     insurance_company := "Star Health", member_id := "SH456", is_returning := false }]

/-- Python name.lower().split(): split on blanks, dropping empty pieces. -/
def splitName (name : String) : List String :=
  (splitChar (strLower name) ' ').filter (fun w => w ≠ "")

/-- PatientLookupTool.lookup_patient: first-OR-last-name match, then a DOB
filter when dob is truthy, returning the first surviving row. -/
def lookup_patient (table : List PatientRow) (name dob : String) : Option PatientRow :=
  let parts := splitName name
  let first := parts.headD ""
  let last := if parts.length > 1 then parts.getLastD "" else ""
  let found := table.filter
    (fun r => strLower r.first_name == first || strLower r.last_name == last)
  let found2 := if !found.isEmpty && dob ≠ "" then
    found.filter (fun r => r.dob == dob) else found
  found2.head?

/-! ## Extractor and collaborator oracles -/

/-- Fields the greeting prompt asks Gemini to extract. -/
structure ExtractedGreeting where
  name : Option String := none
  dob : Option String := none
  doctor : Option String := none
  location : Option String := none
  deriving DecidableEq, Repr

/-- Fields the insurance prompt asks Gemini to extract. -/
structure ExtractedInsurance where
  insurance_company : Option String := none
  member_id : Option String := none
  deriving DecidableEq, Repr

/-- Outcomes of the external collaborators for one processed input.
A none extraction models a raised exception or undecodable JSON at the
exact points where main.py catches them; the Bool fields are the success
results of the best-effort side channels. -/
structure Oracles where
  greet : Option ExtractedGreeting := none
  schedDate : Option String := none
  insurance : Option ExtractedInsurance := none
  ai : Option String := none
  exportOk : Bool := true
  calendlyOk : Bool := true
  emailOk : Bool := true
  remindersSaveOk : Bool := true
  apptId : String := "APT00000000"
  deriving DecidableEq, Repr

/-! ## Slot provider (CalendarManager.get_available_slots_with_calendly) -/

/-- One row of doctor_schedules.xlsx as the slot query reads it. -/
structure ScheduleRow where
  doctor : String
  date : String
  time_slot : String
  available : Bool
  deriving DecidableEq, Repr

/-- Hardcoded fallback schedule of CalendarManager.__init__ (only built
when the Excel file is absent). -/
def doctor_schedules : List (String × List (String × List String)) :=
  [("Dr. Smith",
    [("monday", ["09:00", "10:30", "11:30", "14:30", "15:30"]),
     ("tuesday", ["09:00", "10:30", "11:30", "14:30", "15:30"]),
     ("wednesday", ["10:00", "11:00", "14:00", "15:00", "16:00"]),
     ("thursday", ["09:30", "10:30", "14:00", "15:30"]),
     ("friday", ["09:00", "10:00", "11:00", "14:00"])]),
   ("Dr. Johnson",
    [("monday", ["10:00", "11:00", "15:00", "16:00"]),
     ("tuesday", ["09:00", "14:00", "15:00", "16:00"]),
     ("wednesday", ["09:30", "10:30", "14:30", "15:30"]),
     ("thursday", ["10:00", "11:00", "15:00", "16:00"]),
     ("friday", ["09:00", "10:00", "14:00", "15:00"])])]

/-- The literal fallthrough return of get_available_slots_with_calendly. -/
def defaultSlots : List String := ["09:00 - 09:30", "10:00 - 10:30", "11:00 - 11:30"]

/-- CalendarManager.get_available_slots_with_calendly. The excel argument
is the loaded doctor_schedules.xlsx frame (none when loading failed and
the hardcoded dict of doctor_schedules exists instead). The Calendly query
result is fetched by the Python code but never used, so it does not appear.
When the Excel frame is loaded but has no matching row, the reference to
self.doctor_schedules raises AttributeError (that attribute only exists on
the fallback path), which the enclosing except turns into defaultSlots;
likewise an unparseable date string raises inside strptime. -/
def get_available_slots_with_calendly (excel : Option (List ScheduleRow))
    (doctor : String) (date_str : String) (duration : Nat) : List String :=
  match excel with
  | some df =>
    let date_slots := df.filter
      (fun row => row.doctor == doctor && row.date == date_str && row.available)
    if !date_slots.isEmpty then
      date_slots.map (fun row => row.time_slot ++ " - " ++ add_minutes row.time_slot duration)
    else
      defaultSlots
  | none =>
    match parseDate date_str with
    | none => defaultSlots
    | some ord =>
      match doctor_schedules.lookup doctor with
      | some sched =>
        match sched.lookup (dayNameOf ord) with
        | some slots => slots.map (fun s => s ++ " - " ++ add_minutes s duration)
        | none => defaultSlots
      | none => defaultSlots

/-! ## Stage handlers of SchedulingAgent -/

/-- SchedulingAgent._handle_patient_lookup. -/
def handle_patient_lookup (table : List PatientRow) (st : SessionState) :
    SessionState × String :=
  let p := st.current_patient
  if truthy p.name && truthy p.dob then
    match lookup_patient table (p.name.getD "") (p.dob.getD "") with
    | some r =>
      let dur := if r.is_returning then 30 else 60
      let p2 := { p with
        patient_id := some r.patient_id, first_name := some r.first_name,
        last_name := some r.last_name, dob := some r.dob, phone := some r.phone,
        email := some r.email, insurance_company := some r.insurance_company,
        member_id := some r.member_id, is_returning := some r.is_returning }
      ({ st with current_patient := p2, stage := "scheduling" },
       "Welcome back, " ++ r.first_name ++ "! I found your record. As a " ++
         (if r.is_returning then "returning" else "new") ++ " patient, I will book a " ++
         toString dur ++ "-minute appointment. What date would you prefer for your appointment?")
    | none =>
      ({ st with current_patient := { p with is_returning := some false },
                 stage := "scheduling" },
       "I do not see you in our system, so I will set you up as a new patient with a 60-minute appointment. What date would you prefer for your appointment?")
  else
    (st, "I need your complete information to proceed. Please provide your full name and date of birth (YYYY-MM-DD).")

/-- The different fallback prompt of _handle_greeting (used both for a
JSON decode failure and for an API exception). -/
def greetingFallback : String :=
  "Hello! I am here to help you schedule a medical appointment. Could you please provide your full name, date of birth (YYYY-MM-DD), and preferred doctor?"

/-- SchedulingAgent._handle_greeting: merge the extracted fields into
current_patient by plain dict update (a null extracted value overwrites),
then either prompt for the missing fields or fall through to the patient
lookup after setting the stage. -/
def handle_greeting (table : List PatientRow) (st : SessionState) (o : Oracles) :
    SessionState × String :=
  match o.greet with
  | none => (st, greetingFallback)
  | some e =>
    let p := st.current_patient
    let p2 := { p with
      name := e.name, dob := e.dob, doctor := e.doctor, location := e.location }
    let st2 := { st with current_patient := p2 }
    let missing :=
      (if truthy e.name then [] else ["your full name"]) ++
      (if truthy e.dob then [] else ["your date of birth (YYYY-MM-DD)"]) ++
      (if truthy e.doctor then [] else ["your preferred doctor"])
    if !missing.isEmpty then
      (st2, "Hello! I would be happy to help you schedule an appointment. Could you please provide " ++
        String.intercalate ", " missing ++ "?")
    else
      handle_patient_lookup table { st2 with stage := "patient_lookup" }

/-- The numbered slot list interpolated into the scheduling offer. -/
def slotsText (slots : List String) : String :=
  String.intercalate "\n"
    ((slots.enum).map (fun pr => toString (pr.1 + 1) ++ ". " ++ pr.2))

/-- SchedulingAgent._handle_scheduling: ask the extractor for a date; on a
cleaned reply other than "none" of length 10, fetch slots and replace
appointment_data wholesale; otherwise re-prompt. -/
def handle_scheduling (slotsFn : String → String → Nat → List String)
    (st : SessionState) (o : Oracles) : SessionState × String :=
  match o.schedDate with
  | none => (st, "Please provide your preferred appointment date (YYYY-MM-DD).")
  | some date_str =>
    if date_str ≠ "none" && date_str.length == 10 then
      let doctor := st.current_patient.doctor.getD "Dr. Smith"
      let duration := if st.current_patient.is_returning.getD false then 30 else 60
      let available_slots := slotsFn doctor date_str duration
      let newAppt : Appointment :=
        { date := some date_str, doctor := some doctor, duration := some duration,
          available_slots := available_slots, selected_slot := none }
      ({ st with appointment_data := newAppt },
       "Calendly Integration Active - Available time slots for " ++ doctor ++ " on " ++
         date_str ++ ":\n\n" ++ slotsText available_slots ++
         "\n\nPlease select a slot number (1-" ++ toString available_slots.length ++ ").")
    else
      (st, "I could not understand the date. Please provide a specific date (YYYY-MM-DD) or say tomorrow, next Monday, etc.")

/-- The no-insurance tokens of _handle_insurance, compared against the
lowercased input. -/
def noInsuranceTokens : List String := ["none", "no insurance", "no"]

/-- SchedulingAgent._generate_confirmation_summary. -/
def confirmationSummary (st : SessionState) : String :=
  let p := st.current_patient
  let a := st.appointment_data
  "Please confirm your appointment details:\n\nPatient: " ++ p.first_name.getD "" ++
    " " ++ p.last_name.getD "" ++ "\nDate: " ++ a.date.getD "" ++ "\nTime: " ++
    a.selected_slot.getD "" ++ "\nDoctor: " ++ a.doctor.getD "" ++ "\nDuration: " ++
    (match a.duration with | some d => toString d | none => "") ++
    " minutes\nInsurance: " ++ p.insurance_company.getD "Not provided" ++
    "\n\nPlease type yes to confirm or no to modify."

/-- SchedulingAgent._handle_insurance: requires a selected slot; the
no-insurance tokens store the literal "None" pair, a successful extraction
is merged as-is (nulls included), and any failure stores the raw text as
company with member id "Pending"; all three branches reach confirmation. -/
def handle_insurance (st : SessionState) (o : Oracles) (user_input : String) :
    SessionState × String :=
  if (st.appointment_data.selected_slot).isSome then
    if noInsuranceTokens.contains (strLower user_input) then
      let st2 := { st with
        current_patient := { st.current_patient with
          insurance_company := some "None", member_id := some "None" },
        stage := "confirmation" }
      (st2, confirmationSummary st2)
    else
      match o.insurance with
      | some info =>
        let st2 := { st with
          current_patient := { st.current_patient with
            insurance_company := info.insurance_company, member_id := info.member_id },
          stage := "confirmation" }
        (st2, confirmationSummary st2)
      | none =>
        let st2 := { st with
          current_patient := { st.current_patient with
            insurance_company := some user_input, member_id := some "Pending" },
          stage := "confirmation" }
        (st2, confirmationSummary st2)
  else
    (st, "Please first select an appointment time slot.")

/-! ## Confirmation and record assembly -/

/-- The appointment record assembled by _confirm_appointment (created_at,
a wall clock string, is not modelled). -/
structure AppointmentRecord where
  appointment_id : String
  patient_name : String
  date : Option String
  time : Option String
  doctor : Option String
  duration : Option Nat
  patient_type : String
  insurance : String
  email : String
  phone : String
  status : String
  deriving DecidableEq, Repr

/-- Record assembly at the top of _confirm_appointment. -/
def mkAppointmentRecord (st : SessionState) (apptId : String) : AppointmentRecord :=
  { appointment_id := apptId,
    patient_name := st.current_patient.first_name.getD "" ++ " " ++
      st.current_patient.last_name.getD "",
    date := st.appointment_data.date,
    time := st.appointment_data.selected_slot,
    doctor := st.appointment_data.doctor,
    duration := st.appointment_data.duration,
    patient_type := if st.current_patient.is_returning.getD false then "Returning" else "New",
    insurance := st.current_patient.insurance_company.getD "None",
    email := st.current_patient.email.getD "",
    phone := st.current_patient.phone.getD "",
    status := "Confirmed" }

/-- One reminder descriptor of ReminderSystem.setup_reminders. send_date
is the ordinal day the code renders with strftime; send_time (minutes
since midnight) is only present on the third descriptor, exactly as in
the Python dicts. -/
structure Reminder where
  reminder_id : String
  appointment_id : String
  patient_name : String
  patient_email : String
  kind : String
  send_date : Int
  send_time : Option Nat
  subject : String
  status : String
  actions_required : String
  appointment_date : String
  appointment_time : String
  doctor : String
  deriving DecidableEq, Repr

/-- ReminderSystem.setup_reminders: parse the appointment date and the
start of the slot string, then build the three descriptors. A missing or
malformed date or time raises inside the list construction, so nothing is
produced (none); the Python caller catches that exception. The third
send_time is the strftime rendering of the full timestamp minus two
hours, which keeps only the time of day (hence the wrap modulo 1440). -/
def setup_reminders (r : AppointmentRecord) : Option (List Reminder) :=
  match r.date with
  | none => none
  | some ds =>
    match parseDate ds with
    | none => none
    | some day =>
      match r.time with
      | none => none
      | some ts =>
        match parseHM (slotStart ts) with
        | none => none
        | some startMin =>
          some
            [{ reminder_id := "R1_" ++ r.appointment_id,
               appointment_id := r.appointment_id,
               patient_name := r.patient_name, patient_email := r.email,
               kind := "7_day_reminder", send_date := (day : Int) - 7,
               send_time := none,
               subject := "Appointment Reminder - " ++ r.appointment_id,
               status := "Scheduled",
               actions_required := "None - General reminder",
               appointment_date := ds, appointment_time := ts,
               doctor := r.doctor.getD "" },
             { reminder_id := "R2_" ++ r.appointment_id,
               appointment_id := r.appointment_id,
               patient_name := r.patient_name, patient_email := r.email,
               kind := "1_day_reminder_with_forms_check", send_date := (day : Int) - 1,
               send_time := none,
               subject := "Tomorrows Appointment - Action Required - " ++ r.appointment_id,
               status := "Scheduled",
               actions_required := "1) Have you filled the forms? 2) Is your visit confirmed? If not, provide cancellation reason",
               appointment_date := ds, appointment_time := ts,
               doctor := r.doctor.getD "" },
             { reminder_id := "R3_" ++ r.appointment_id,
               appointment_id := r.appointment_id,
               patient_name := r.patient_name, patient_email := r.email,
               kind := "2_hour_final_confirmation", send_date := (day : Int),
               send_time := some ((startMin + 1440 - 120) % 1440),
               subject := "URGENT: Final Confirmation Required - " ++ r.appointment_id,
               status := "Scheduled",
               actions_required := "1) Have you filled the forms? 2) Confirm visit or provide cancellation reason immediately",
               appointment_date := ds, appointment_time := ts,
               doctor := r.doctor.getD "" }]

/-- Result of one processed input: the updated session, the response text,
and the two persisted stores (the appointments Excel file and the
reminders Excel file, as lists of records). -/
structure StepResult where
  state : SessionState
  response : String
  appointments : List AppointmentRecord
  reminders : List Reminder
  deriving DecidableEq, Repr

/-- Abbreviated confirmation response of _confirm_appointment (the full
banner text, reduced to its data-bearing lines). -/
def confirmSuccessText (r : AppointmentRecord) : String :=
  "ALL 8 FEATURES COMPLETED! Appointment Confirmed - Appointment ID: " ++
    r.appointment_id ++ " Date: " ++ r.date.getD "" ++ " Time: " ++ r.time.getD "" ++
    " Doctor: " ++ r.doctor.getD "" ++ " Thank you for choosing our clinic!"

/-- SchedulingAgent._confirm_appointment: assemble the record, export it
(an export failure is caught inside _export_to_excel and loses the row
only), fire the Calendly and email side channels (results only displayed),
then compute the reminders. A reminder computation failure propagates to
the outer except: the stage is left unchanged and the apology is returned,
with the already-exported record kept. On success the stage is reset to
greeting; patient and appointment data are not touched. -/
def confirm_appointment (st : SessionState) (o : Oracles)
    (appointments : List AppointmentRecord) (reminders : List Reminder) : StepResult :=
  let r := mkAppointmentRecord st o.apptId
  let appointments2 := if o.exportOk then appointments ++ [r] else appointments
  match setup_reminders r with
  | none =>
    { state := st,
      response := "Sorry, there was an error confirming your appointment.",
      appointments := appointments2, reminders := reminders }
  | some rs =>
    { state := { st with stage := "greeting" },
      response := confirmSuccessText r,
      appointments := appointments2,
      reminders := if o.remindersSaveOk then reminders ++ rs else reminders }

/-- Affirmative tokens of _handle_confirmation. -/
def affirmativeTokens : List String := ["yes", "confirm", "y", "ok", "sure"]

/-- Negative tokens of _handle_confirmation. -/
def negativeTokens : List String := ["no", "cancel", "n"]

/-- SchedulingAgent._handle_confirmation. -/
def handle_confirmation (st : SessionState) (o : Oracles) (user_input : String)
    (appointments : List AppointmentRecord) (reminders : List Reminder) : StepResult :=
  if affirmativeTokens.contains (strLower user_input) then
    confirm_appointment st o appointments reminders
  else if negativeTokens.contains (strLower user_input) then
    { state := { st with stage := "scheduling" },
      response := "No problem! Would you like to select a different date or time?",
      appointments := appointments, reminders := reminders }
  else
    { state := st, response := "Please confirm by typing yes or no.",
      appointments := appointments, reminders := reminders }

/-- SchedulingAgent.process_user_input: dispatch on the stage string; any
other stage goes to the general AI responder (whose text is an oracle,
with the literal apology as exception fallback). -/
def process_user_input (table : List PatientRow)
    (slotsFn : String → String → Nat → List String) (st : SessionState)
    (o : Oracles) (user_input : String) (appointments : List AppointmentRecord)
    (reminders : List Reminder) : StepResult :=
  if st.stage == "greeting" then
    let pr := handle_greeting table st o
    { state := pr.1, response := pr.2, appointments := appointments, reminders := reminders }
  else if st.stage == "patient_lookup" then
    let pr := handle_patient_lookup table st
    { state := pr.1, response := pr.2, appointments := appointments, reminders := reminders }
  else if st.stage == "scheduling" then
    let pr := handle_scheduling slotsFn st o
    { state := pr.1, response := pr.2, appointments := appointments, reminders := reminders }
  else if st.stage == "insurance" then
    let pr := handle_insurance st o user_input
    { state := pr.1, response := pr.2, appointments := appointments, reminders := reminders }
  else if st.stage == "confirmation" then
    handle_confirmation st o user_input appointments reminders
  else
    { state := st,
      response := o.ai.getD "I am here to help you schedule medical appointments. How can I assist you today?",
      appointments := appointments, reminders := reminders }

/-- The chat-input handler of main(): at stage scheduling, an
isdigit-classified input is intercepted as a slot selection against the
stored available_slots (1-based). int(user_input) there is NOT guarded:
on a digit-classified token without decimal digits it raises a ValueError
that nothing catches, aborting the script run with no response appended —
the none result. Anything not digit-classified goes to
process_user_input. -/
def main_step (table : List PatientRow)
    (slotsFn : String → String → Nat → List String) (st : SessionState)
    (o : Oracles) (user_input : String) (appointments : List AppointmentRecord)
    (reminders : List Reminder) : Option StepResult :=
  if st.stage == "scheduling" && pyIsdigit user_input then
    match pyInt user_input with
    | none => none
    | some n =>
      let slot_index : Int := (n : Int) - 1
      let slots := st.appointment_data.available_slots
      if 0 ≤ slot_index ∧ slot_index < (slots.length : Int) then
        some
          { state := { st with
              appointment_data := { st.appointment_data with
                selected_slot := some (slots.getD slot_index.toNat "") },
              stage := "insurance" },
            response := "Great! I have selected that time slot. Now, could you please provide your insurance company name and member ID? (If you do not have insurance, just type none)",
            appointments := appointments, reminders := reminders }
      else
        some
          { state := st,
            response := "Please select a valid slot number between 1 and " ++ toString slots.length,
            appointments := appointments, reminders := reminders }
  else
    some (process_user_input table slotsFn st o user_input appointments reminders)

/-- A throwaway step result, used only as the getD default of witnesses. -/
def emptyStep : StepResult :=
  { state := {}, response := "", appointments := [], reminders := [] }

/-! ## Helper lemmas -/

/-- Appending to a nonempty string stays nonempty. -/
theorem ne_empty_append (s t : String) (h : s ≠ "") : s ++ t ≠ "" := by
  intro he
  apply h
  have hd := congrArg String.data he
  rw [String.data_append] at hd
  rcases List.append_eq_nil.mp hd with ⟨h1, _⟩
  cases s
  simp_all [String.ext_iff]

/-- A value found by List.lookup is among the stored values. -/
theorem lookup_mem {α β : Type} [BEq α] (l : List (α × β)) (k : α) (v : β)
    (h : l.lookup k = some v) : v ∈ l.map Prod.snd := by
  induction l with
  | nil => simp [List.lookup] at h
  | cons p ps ih =>
    rw [List.lookup] at h
    split at h
    · cases h; simp
    · simpa using Or.inr (ih h)

/-- The head of a filtered list satisfies the filter predicate. -/
theorem head_filter_holds {α : Type} (p : α → Bool) (l : List α) (a : α)
    (h : (l.filter p).head? = some a) : p a = true := by
  have hmem : a ∈ l.filter p := by
    cases hl : l.filter p with
    | nil => rw [hl] at h; simp at h
    | cons x xs =>
      rw [hl] at h
      have hx : x = a := by simpa using h
      subst hx
      exact List.mem_cons_self _ _
  exact (List.mem_filter.mp hmem).2

/-- Whatever survives the DOB gate of lookup_patient carries the queried
date of birth, provided that date is nonempty. -/
theorem head_of_dob_gate (F : List PatientRow) (dob : String) (r : PatientRow)
    (hd : dob ≠ "")
    (h : (if !F.isEmpty && dob ≠ "" then F.filter (fun x => x.dob == dob)
          else F).head? = some r) : r.dob = dob := by
  split at h
  · simpa using head_filter_holds _ _ _ h
  · rename_i hc
    rcases F with _ | ⟨a, as⟩
    · simp at h
    · simp [hd] at hc

/-- The row returned by lookup_patient carries exactly the queried date of
birth whenever that date is nonempty (the DOB filter guarantees it). -/
theorem lookup_patient_dob (table : List PatientRow) (name dob : String)
    (r : PatientRow) (hd : dob ≠ "")
    (h : lookup_patient table name dob = some r) : r.dob = dob := by
  unfold lookup_patient at h
  exact head_of_dob_gate _ dob r hd h

/-- parseHM always yields a time of day below 1440 minutes. -/
theorem parseHM_lt (s : String) (n : Nat) (h : parseHM s = some n) : n < 1440 := by
  unfold parseHM at h
  split at h
  · split at h
    · split at h
      · rename_i hs ms hv mv heq cond
        simp only [Option.some.injEq] at h
        subst h
        simp only [Bool.and_eq_true, decide_eq_true_eq] at cond
        omega
      · exact absurd h (by simp)
    · exact absurd h (by simp)
  · exact absurd h (by simp)

/-- Tokens of the negative set are not in the affirmative set. -/
theorem neg_not_affirmative (s : String) (h : s ∈ negativeTokens) :
    s ∉ affirmativeTokens := by
  fin_cases h <;> decide

/-- Outside the slot-selection interception, the step always completes
with the dispatcher result. -/
theorem main_step_not_sched (table : List PatientRow)
    (slotsFn : String → String → Nat → List String) (st : SessionState)
    (o : Oracles) (input : String) (appts : List AppointmentRecord)
    (rems : List Reminder)
    (h : (st.stage == "scheduling" && pyIsdigit input) = false) :
    main_step table slotsFn st o input appts rems =
      some (process_user_input table slotsFn st o input appts rems) := by
  simp [main_step, h]

/-! ## Concrete fixtures used by counterexamples and witnesses -/

/-- A slot provider stub returning the default list. -/
def constSlots : String → String → Nat → List String := fun _ _ _ => defaultSlots

/-- A fully populated patient (John Doe of the fallback table after a
directory merge). -/
def patC : Patient :=
  { name := some "John Doe", dob := some "1990-01-01", doctor := some "Dr. Smith",
    first_name := some "John", last_name := some "Doe", email := some "john@example.com",
    phone := some "+919876543210", insurance_company := some "None",
    member_id := some "None", is_returning := some true, patient_id := some "P0001" }

/-- Appointment data with a stored selected slot. -/
def apptC : Appointment :=
  { date := some "2025-06-10", doctor := some "Dr. Smith", duration := some 30,
    available_slots := ["09:00 - 09:30", "10:00 - 10:30", "11:00 - 11:30"],
    selected_slot := some "09:00 - 09:30" }

/-- A session sitting at the confirmation stage. -/
def stConf : SessionState :=
  { stage := "confirmation", current_patient := patC, appointment_data := apptC }

/-! ## C1: negative confirmation input -/

/-- C1 counterexample: at Confirmation with selected slot 09:00 - 09:30,
the input "no" moves the stage to scheduling but the previously stored
selected_slot is still present in the appointment data: the transition
does not discard it, contrary to the claim. -/
theorem c1_counterexample :
    (main_step fallbackPatients constSlots stConf {} "no" [] []).map
      (fun res => res.state.stage) = some "scheduling" ∧
    (main_step fallbackPatients constSlots stConf {} "no" [] []).map
      (fun res => res.state.appointment_data.selected_slot)
      = some (some "09:00 - 09:30") := ⟨rfl, rfl⟩

/-- C1 (amended): when the session is at Confirmation and the lowercased
input is one of the negative tokens, the next stage is scheduling, but the
stored appointment data, the selected_slot included, is left unchanged by
this transition (it is only replaced later when a new date is scheduled). -/
theorem c1_theorem (table : List PatientRow)
    (slotsFn : String → String → Nat → List String) (st : SessionState)
    (o : Oracles) (input : String) (appts : List AppointmentRecord)
    (rems : List Reminder) (hstage : st.stage = "confirmation")
    (hneg : strLower input ∈ negativeTokens) :
    (main_step table slotsFn st o input appts rems).map
      (fun res => res.state.stage) = some "scheduling" ∧
    (main_step table slotsFn st o input appts rems).map
      (fun res => res.state.appointment_data) = some st.appointment_data ∧
    (main_step table slotsFn st o input appts rems).map
      (fun res => res.state.current_patient) = some st.current_patient := by
  have haff := neg_not_affirmative (strLower input) hneg
  rw [main_step_not_sched table slotsFn st o input appts rems (by simp [hstage])]
  simp [process_user_input, hstage, handle_confirmation, haff, hneg]

/-- C1 witness: the amended theorem applied to the concrete session. -/
theorem c1_witness :
    (main_step fallbackPatients constSlots stConf {} "no" [] []).map
      (fun res => res.state.stage) = some "scheduling" ∧
    (main_step fallbackPatients constSlots stConf {} "no" [] []).map
      (fun res => res.state.appointment_data) = some stConf.appointment_data ∧
    (main_step fallbackPatients constSlots stConf {} "no" [] []).map
      (fun res => res.state.current_patient) = some stConf.current_patient :=
  c1_theorem fallbackPatients constSlots stConf {} "no" [] [] rfl (by decide)

/-! ## C2: returning flag and duration -/

/-- A truthy optional string is a some of a nonempty string. -/
theorem truthy_some (x : Option String) (h : truthy x = true) :
    ∃ s, x = some s ∧ s ≠ "" := by
  cases x with
  | none => simp [truthy] at h
  | some s => exact ⟨s, rfl, by simpa [truthy] using h⟩

/-- A session waiting at the patient-lookup stage with the data of Jane
Smith, the second row of the fallback directory. -/
def stJane : SessionState :=
  { stage := "patient_lookup",
    current_patient := { name := some "Jane Smith", dob := some "1985-05-15", doctor := some "Dr. Smith" } }

/-- C2 counterexample: the directory match for Jane Smith exists, yet the
lookup transition stores returning = false (the flag is copied from the
matched record, not set to true), and the duration the scheduling stage
then derives is 60, not 30. -/
theorem c2_counterexample :
    lookup_patient fallbackPatients "Jane Smith" "1985-05-15" ≠ none ∧
    (main_step fallbackPatients constSlots stJane {} "" [] []).map
      (fun res => res.state.current_patient.is_returning) = some (some false) ∧
    (handle_scheduling constSlots
      ((main_step fallbackPatients constSlots stJane {} "" [] []).getD emptyStep).state
      { schedDate := some "2025-06-10" }).1.appointment_data.duration = some 60 :=
  ⟨by decide, rfl, rfl⟩

/-- C2 (amended): at the patient-lookup transition the returning flag is
copied from the matched directory record (not forced to true; false/60
without a match), and the 30/60 duration is derived from that flag at the
scheduling stage; every later step of the session leaves the flag
unchanged, so each scheduling pass derives the same duration. -/
theorem c2_theorem :
    (∀ table st r,
       truthy st.current_patient.name = true → truthy st.current_patient.dob = true →
       lookup_patient table (st.current_patient.name.getD "")
         (st.current_patient.dob.getD "") = some r →
       (handle_patient_lookup table st).1.current_patient.is_returning = some r.is_returning ∧
       (handle_patient_lookup table st).1.stage = "scheduling") ∧
    (∀ table st,
       truthy st.current_patient.name = true → truthy st.current_patient.dob = true →
       lookup_patient table (st.current_patient.name.getD "")
         (st.current_patient.dob.getD "") = none →
       (handle_patient_lookup table st).1.current_patient.is_returning = some false) ∧
    (∀ slotsFn st o date_str, o.schedDate = some date_str →
       (date_str ≠ "none" && date_str.length == 10) = true →
       (handle_scheduling slotsFn st o).1.appointment_data.duration =
         some (if st.current_patient.is_returning.getD false then 30 else 60)) ∧
    (∀ table slotsFn st o input appts rems res,
       st.stage = "scheduling" ∨ st.stage = "insurance" ∨ st.stage = "confirmation" →
       main_step table slotsFn st o input appts rems = some res →
       res.state.current_patient.is_returning = st.current_patient.is_returning) := by
  refine ⟨?_, ?_, ?_, ?_⟩
  · intro table st r hn hd hfound
    simp [handle_patient_lookup, hn, hd, hfound]
  · intro table st hn hd hfound
    simp [handle_patient_lookup, hn, hd, hfound]
  · intro slotsFn st o date_str hdate hok
    obtain ⟨h1, h2⟩ : date_str ≠ "none" ∧ date_str.length = 10 := by simpa using hok
    simp [handle_scheduling, hdate, h1, h2]
  · intro table slotsFn st o input appts rems res hst hsome
    rcases hst with hst | hst | hst
    · by_cases hdig : pyIsdigit input
      · have hc : ((st.stage == "scheduling") && pyIsdigit input) = true := by
          rw [hst, hdig]; rfl
        simp only [main_step, hc, if_true] at hsome
        cases hpi : pyInt input with
        | none => rw [hpi] at hsome; exact absurd hsome (by simp)
        | some n =>
          rw [hpi] at hsome
          dsimp only at hsome
          split at hsome <;>
            (simp only [Option.some.injEq] at hsome; subst hsome; rfl)
      · rw [Bool.not_eq_true] at hdig
        have hc : ((st.stage == "scheduling") && pyIsdigit input) = false := by
          rw [hdig]; simp
        rw [main_step_not_sched table slotsFn st o input appts rems hc] at hsome
        simp only [Option.some.injEq] at hsome
        subst hsome
        simp [process_user_input, hst, handle_scheduling]
        cases o.schedDate with
        | none => rfl
        | some d => dsimp only; split <;> rfl
    · rw [main_step_not_sched table slotsFn st o input appts rems (by simp [hst])] at hsome
      simp only [Option.some.injEq] at hsome
      subst hsome
      simp [process_user_input, hst, handle_insurance]
      split
      · split
        · rfl
        · cases o.insurance <;> rfl
      · rfl
    · rw [main_step_not_sched table slotsFn st o input appts rems (by simp [hst])] at hsome
      simp only [Option.some.injEq] at hsome
      subst hsome
      simp [process_user_input, hst, handle_confirmation]
      split
      · simp [confirm_appointment]
        split <;> rfl
      · split <;> rfl

/-- The second row of the fallback directory (Jane Smith). -/
def janeRow : PatientRow :=
  { patient_id := "P0002", first_name := "Jane", last_name := "Smith",
    dob := "1985-05-15", phone := "+919876543211", email := "jane@example.com",
    insurance_company := "Star Health", member_id := "SH456", is_returning := false }

/-- C2 witness: the amended theorem applied to the two fallback rows and a
concrete scheduling and preservation step. -/
theorem c2_witness :
    ((handle_patient_lookup fallbackPatients stJane).1.current_patient.is_returning
        = some false ∧
      (handle_patient_lookup fallbackPatients stJane).1.stage = "scheduling") ∧
    (handle_scheduling constSlots stJane { schedDate := some "2025-06-10" }).1.appointment_data.duration
        = some (if stJane.current_patient.is_returning.getD false then 30 else 60) ∧
    ((main_step fallbackPatients constSlots stConf {} "maybe" [] []).getD emptyStep).state.current_patient.is_returning
        = stConf.current_patient.is_returning := by
  refine ⟨?_, ?_, ?_⟩
  · have h := c2_theorem.1 fallbackPatients stJane janeRow
      (by decide) (by decide) (by decide)
    exact ⟨h.1, h.2⟩
  · exact c2_theorem.2.2.1 constSlots stJane { schedDate := some "2025-06-10" }
      "2025-06-10" rfl (by decide)
  · exact c2_theorem.2.2.2 fallbackPatients constSlots stConf {} "maybe" [] []
      ((main_step fallbackPatients constSlots stConf {} "maybe" [] []).getD emptyStep)
      (Or.inr (Or.inr rfl)) rfl

/-! ## C3: information monotonicity of the patient record -/

/-- A greeting session that already stores a name. -/
def stGreet : SessionState :=
  { stage := "greeting", current_patient := { name := some "John Doe" } }

/-- An extraction result whose name field is null. -/
def extNullName : ExtractedGreeting :=
  { name := none, dob := some "1990-01-01", doctor := some "Dr. Smith" }

/-- C3 counterexample: the stored non-null name is overwritten with null
when a later greeting extraction returns name = null — the patient record
does lose information. -/
theorem c3_counterexample :
    stGreet.current_patient.name = some "John Doe" ∧
    (main_step fallbackPatients constSlots stGreet { greet := some extNullName }
      "I was born 1990-01-01" [] []).map
      (fun res => res.state.current_patient.name) = some none :=
  ⟨rfl, rfl⟩

/-- C3 (amended): the greeting merge is an unconditional dict update: the
four extracted fields replace the stored ones exactly as extracted, so a
null extracted field overwrites a stored non-null field with null — the
claimed only-non-null-overwrites rule does not hold at the greeting
merge. -/
theorem c3_theorem (table : List PatientRow)
    (slotsFn : String → String → Nat → List String) (st : SessionState)
    (o : Oracles) (e : ExtractedGreeting) (input : String)
    (appts : List AppointmentRecord) (rems : List Reminder)
    (hstage : st.stage = "greeting") (hg : o.greet = some e) :
    (main_step table slotsFn st o input appts rems).map
      (fun res => res.state.current_patient.name) = some e.name ∧
    (main_step table slotsFn st o input appts rems).map
      (fun res => res.state.current_patient.doctor) = some e.doctor ∧
    (main_step table slotsFn st o input appts rems).map
      (fun res => res.state.current_patient.location) = some e.location ∧
    (main_step table slotsFn st o input appts rems).map
      (fun res => res.state.current_patient.dob) = some e.dob := by
  have hmain : main_step table slotsFn st o input appts rems =
      some { state := (handle_greeting table st o).1,
             response := (handle_greeting table st o).2,
             appointments := appts, reminders := rems } := by
    rw [main_step_not_sched table slotsFn st o input appts rems (by simp [hstage])]
    simp [process_user_input, hstage]
  rw [hmain]
  simp only [Option.map_some']
  by_cases hn : truthy e.name <;> by_cases hd : truthy e.dob <;>
    by_cases hdoc : truthy e.doctor <;>
    simp only [handle_greeting, hg, hn, hdoc, hd, Bool.false_eq_true, if_true, if_false,
      List.append_nil, List.nil_append, List.isEmpty_cons, List.isEmpty_nil,
      Bool.not_false, Bool.not_true, ite_true, ite_false] <;>
    try exact ⟨rfl, rfl, rfl, rfl⟩
  all_goals try exact ⟨trivial, trivial, trivial, trivial⟩
  -- remaining case: all three truthy, the lookup fallthrough
  obtain ⟨dval, hdv, hdne⟩ := truthy_some e.dob hd
  simp only [handle_patient_lookup]
  have hcond : (truthy e.name && truthy e.dob) = true := by rw [hn, hd]; rfl
  rw [hcond]
  simp only [if_true]
  cases hfound : lookup_patient table (e.name.getD "") (e.dob.getD "") with
  | none => exact ⟨rfl, rfl, rfl, rfl⟩
  | some r =>
    refine ⟨rfl, rfl, rfl, ?_⟩
    rw [hdv] at hfound
    simp only [Option.getD_some] at hfound
    have hrdob : r.dob = dval :=
      lookup_patient_dob table (e.name.getD "") dval r hdne hfound
    show some (some r.dob) = some e.dob
    rw [hdv, hrdob]

/-- C3 witness: the amended theorem applied to the concrete overwrite. -/
theorem c3_witness :
    (main_step fallbackPatients constSlots stGreet { greet := some extNullName }
      "I was born 1990-01-01" [] []).map
      (fun res => res.state.current_patient.name) = some extNullName.name ∧
    (main_step fallbackPatients constSlots stGreet { greet := some extNullName }
      "I was born 1990-01-01" [] []).map
      (fun res => res.state.current_patient.doctor) = some extNullName.doctor ∧
    (main_step fallbackPatients constSlots stGreet { greet := some extNullName }
      "I was born 1990-01-01" [] []).map
      (fun res => res.state.current_patient.location) = some extNullName.location ∧
    (main_step fallbackPatients constSlots stGreet { greet := some extNullName }
      "I was born 1990-01-01" [] []).map
      (fun res => res.state.current_patient.dob) = some extNullName.dob :=
  c3_theorem fallbackPatients constSlots stGreet { greet := some extNullName }
    extNullName "I was born 1990-01-01" [] [] rfl rfl

/-! ## C4: reset after booking -/

/-- C4 counterexample: after the affirmative confirmation completes, the
stage is back at greeting, but the accumulated patient and appointment
data are NOT cleared: the next booking starts with the stale data. -/
theorem c4_counterexample :
    (main_step fallbackPatients constSlots stConf {} "yes" [] []).map
      (fun res => res.state.stage) = some "greeting" ∧
    (main_step fallbackPatients constSlots stConf {} "yes" [] []).map
      (fun res => res.state.current_patient.first_name) = some (some "John") ∧
    (main_step fallbackPatients constSlots stConf {} "yes" [] []).map
      (fun res => res.state.appointment_data.selected_slot)
      = some (some "09:00 - 09:30") :=
  ⟨rfl, rfl, rfl⟩

/-- C4 (amended): after an affirmative confirmation whose record assembly
and reminder computation succeed, only the stage is reset to greeting; the
accumulated current_patient and appointment_data are retained unchanged
(they are cleared only by the explicit reset command of the sidebar). -/
theorem c4_theorem (table : List PatientRow)
    (slotsFn : String → String → Nat → List String) (st : SessionState)
    (o : Oracles) (input : String) (appts : List AppointmentRecord)
    (rems : List Reminder) (rs : List Reminder)
    (hstage : st.stage = "confirmation")
    (haff : strLower input ∈ affirmativeTokens)
    (hset : setup_reminders (mkAppointmentRecord st o.apptId) = some rs) :
    (main_step table slotsFn st o input appts rems).map
      (fun res => res.state.stage) = some "greeting" ∧
    (main_step table slotsFn st o input appts rems).map
      (fun res => res.state.current_patient) = some st.current_patient ∧
    (main_step table slotsFn st o input appts rems).map
      (fun res => res.state.appointment_data) = some st.appointment_data := by
  rw [main_step_not_sched table slotsFn st o input appts rems (by simp [hstage])]
  simp [process_user_input, hstage, handle_confirmation, haff,
    confirm_appointment, hset]

/-- C4 witness: the amended theorem applied to the concrete session. -/
theorem c4_witness :
    (main_step fallbackPatients constSlots stConf {} "yes" [] []).map
      (fun res => res.state.stage) = some "greeting" ∧
    (main_step fallbackPatients constSlots stConf {} "yes" [] []).map
      (fun res => res.state.current_patient) = some stConf.current_patient ∧
    (main_step fallbackPatients constSlots stConf {} "yes" [] []).map
      (fun res => res.state.appointment_data) = some stConf.appointment_data :=
  c4_theorem fallbackPatients constSlots stConf {} "yes" [] []
    ((setup_reminders (mkAppointmentRecord stConf ({} : Oracles).apptId)).getD [])
    rfl (by decide) rfl

/-! ## C5: slot selection validation -/

/-- Appointment data as left by a scheduling offer of three slots. -/
def apptSched : Appointment :=
  { date := some "2025-06-09", doctor := some "Dr. Smith", duration := some 30,
    available_slots := ["09:00 - 09:30", "10:00 - 10:30", "11:00 - 11:30"],
    selected_slot := none }

/-- A session at the scheduling stage holding a three-slot offer. -/
def stSched : SessionState :=
  { stage := "scheduling", current_patient := patC, appointment_data := apptSched }

/-- C5 counterexample: with three offered slots, the non-numeric token
"tomorrow" is not answered by a range re-prompt and does not leave the
appointment data unchanged: it is routed to the date handler, which
replaces the whole offer. -/
theorem c5_counterexample :
    (main_step fallbackPatients (get_available_slots_with_calendly none) stSched
      { schedDate := some "2025-06-10" } "tomorrow" [] []).map
      (fun res => res.state.appointment_data)
      ≠ some stSched.appointment_data ∧
    (main_step fallbackPatients (get_available_slots_with_calendly none) stSched
      { schedDate := some "2025-06-10" } "tomorrow" [] []).map
      (fun res => res.response)
      ≠ some "Please select a valid slot number between 1 and 3" := by
  constructor <;> decide

/-- C5 (amended): at the scheduling stage holding an offer of length L, a
token of decimal digits (of any script) with value n, 1 le n le L, stores
the (n-1)-th slot and moves to insurance; a decimal token out of that
range (zero, too large, or the offer empty) yields exactly the range
re-prompt naming 1..L and leaves the session unchanged; a token that
str.isdigit classifies as digits but that has no base-10 value (for
example a superscript digit) makes int() raise an uncaught ValueError —
the step aborts with no response; and a token not classified as digits is
not range-validated at all: it is handed to the date-scheduling handler,
which either re-prompts for a date (session unchanged, with a message that
does not name the range) or, on a parsed date, replaces the whole offer. -/
theorem c5_theorem (table : List PatientRow)
    (slotsFn : String → String → Nat → List String) (st : SessionState)
    (o : Oracles) (input : String) (appts : List AppointmentRecord)
    (rems : List Reminder) (hstage : st.stage = "scheduling") :
    (∀ n, pyIsdigit input = true → pyInt input = some n →
       1 ≤ n → n ≤ st.appointment_data.available_slots.length →
       (main_step table slotsFn st o input appts rems).map
         (fun res => res.state.stage) = some "insurance" ∧
       (main_step table slotsFn st o input appts rems).map
         (fun res => res.state.appointment_data) =
         some { st.appointment_data with
           selected_slot := some (st.appointment_data.available_slots.getD (n - 1) "") }) ∧
    (∀ n, pyIsdigit input = true → pyInt input = some n →
       ¬(1 ≤ n ∧ n ≤ st.appointment_data.available_slots.length) →
       (main_step table slotsFn st o input appts rems).map
         (fun res => res.state) = some st ∧
       (main_step table slotsFn st o input appts rems).map
         (fun res => res.response) =
         some ("Please select a valid slot number between 1 and " ++
           toString st.appointment_data.available_slots.length)) ∧
    (pyIsdigit input = true → pyInt input = none →
       main_step table slotsFn st o input appts rems = none) ∧
    (pyIsdigit input = false → o.schedDate = none →
       (main_step table slotsFn st o input appts rems).map
         (fun res => res.state) = some st ∧
       (main_step table slotsFn st o input appts rems).map
         (fun res => res.response) =
         some "Please provide your preferred appointment date (YYYY-MM-DD).") ∧
    (∀ d, pyIsdigit input = false → o.schedDate = some d →
       ¬(d ≠ "none" ∧ d.length = 10) →
       (main_step table slotsFn st o input appts rems).map
         (fun res => res.state) = some st ∧
       (main_step table slotsFn st o input appts rems).map
         (fun res => res.response) =
         some "I could not understand the date. Please provide a specific date (YYYY-MM-DD) or say tomorrow, next Monday, etc.") ∧
    (∀ d, pyIsdigit input = false → o.schedDate = some d → d ≠ "none" → d.length = 10 →
       (main_step table slotsFn st o input appts rems).map
         (fun res => res.state.appointment_data) =
         some { date := some d,
                doctor := some (st.current_patient.doctor.getD "Dr. Smith"),
                duration := some (if st.current_patient.is_returning.getD false then 30 else 60),
                available_slots := slotsFn (st.current_patient.doctor.getD "Dr. Smith") d
                  (if st.current_patient.is_returning.getD false then 30 else 60),
                selected_slot := none }) := by
  refine ⟨?_, ?_, ?_, ?_, ?_, ?_⟩
  · intro n hdig hparse h1 hn
    have hc : ((st.stage == "scheduling") && pyIsdigit input) = true := by
      rw [hstage, hdig]; rfl
    simp only [main_step, hc, if_true, hparse]
    have hcond : (0 : Int) ≤ (n : Int) - 1 ∧
        (n : Int) - 1 < (st.appointment_data.available_slots.length : Int) := by
      omega
    rw [if_pos hcond]
    have htn : ((n : Int) - 1).toNat = n - 1 := by omega
    simp [htn]
  · intro n hdig hparse hrange
    have hc : ((st.stage == "scheduling") && pyIsdigit input) = true := by
      rw [hstage, hdig]; rfl
    simp only [main_step, hc, if_true, hparse]
    have hcond : ¬((0 : Int) ≤ (n : Int) - 1 ∧
        (n : Int) - 1 < (st.appointment_data.available_slots.length : Int)) := by
      omega
    rw [if_neg hcond]
    exact ⟨rfl, rfl⟩
  · intro hdig hparse
    have hc : ((st.stage == "scheduling") && pyIsdigit input) = true := by
      rw [hstage, hdig]; rfl
    simp only [main_step, hc, if_true, hparse]
  · intro hdig hd
    have hc : ((st.stage == "scheduling") && pyIsdigit input) = false := by
      rw [hdig]; simp
    rw [main_step_not_sched table slotsFn st o input appts rems hc]
    simp [process_user_input, hstage, handle_scheduling, hd]
  · intro d hdig hd hbad
    have hc : ((st.stage == "scheduling") && pyIsdigit input) = false := by
      rw [hdig]; simp
    rw [main_step_not_sched table slotsFn st o input appts rems hc]
    simp [process_user_input, hstage, handle_scheduling, hd, hbad]
  · intro d hdig hd hnone hlen
    have hc : ((st.stage == "scheduling") && pyIsdigit input) = false := by
      rw [hdig]; simp
    rw [main_step_not_sched table slotsFn st o input appts rems hc]
    simp [process_user_input, hstage, handle_scheduling, hd, hnone, hlen]

/-- C5 witness: the amended theorem applied to concrete selections: the
valid pick 2 of 3, the out-of-range Arabic-Indic five, the crashing
superscript two, and the non-numeric token. -/
theorem c5_witness :
    ((main_step fallbackPatients constSlots stSched {} "2" [] []).map
        (fun res => res.state.stage) = some "insurance" ∧
      (main_step fallbackPatients constSlots stSched {} "2" [] []).map
        (fun res => res.state.appointment_data) =
        some { apptSched with selected_slot := some "10:00 - 10:30" }) ∧
    ((main_step fallbackPatients constSlots stSched {} "٥" [] []).map
        (fun res => res.state) = some stSched ∧
      (main_step fallbackPatients constSlots stSched {} "٥" [] []).map
        (fun res => res.response) =
        some "Please select a valid slot number between 1 and 3") ∧
    main_step fallbackPatients constSlots stSched {} "²" [] [] = none ∧
    ((main_step fallbackPatients constSlots stSched {} "soon" [] []).map
        (fun res => res.state) = some stSched ∧
      (main_step fallbackPatients constSlots stSched {} "soon" [] []).map
        (fun res => res.response) =
        some "Please provide your preferred appointment date (YYYY-MM-DD).") := by
  refine ⟨?_, ?_, ?_, ?_⟩
  · have h := (c5_theorem fallbackPatients constSlots stSched {} "2" [] [] rfl).1 2
      (by decide) (by decide) (by decide) (by decide)
    exact ⟨h.1, h.2⟩
  · have h := (c5_theorem fallbackPatients constSlots stSched {} "٥" [] [] rfl).2.1 5
      (by decide) (by decide) (by decide)
    exact ⟨h.1, h.2⟩
  · exact (c5_theorem fallbackPatients constSlots stSched {} "²" [] [] rfl).2.2.1
      (by decide) (by decide)
  · exact (c5_theorem fallbackPatients constSlots stSched {} "soon" [] [] rfl).2.2.2.1
      (by decide) rfl

/-! ## C6: liveness -/

/-- Every patient-lookup response is nonempty. -/
theorem resp_lookup (table : List PatientRow) (st : SessionState) :
    (handle_patient_lookup table st).2 ≠ "" := by
  unfold handle_patient_lookup
  dsimp only
  split
  · split <;> (dsimp only; repeat first | decide | apply ne_empty_append)
  · dsimp only; decide

/-- The patient-lookup handler keeps the stage or moves it to scheduling. -/
theorem stage_lookup (table : List PatientRow) (st : SessionState) :
    (handle_patient_lookup table st).1.stage = st.stage ∨
    (handle_patient_lookup table st).1.stage = "scheduling" := by
  unfold handle_patient_lookup
  dsimp only
  split
  · split
    · right; rfl
    · right; rfl
  · left; rfl

/-- Every greeting response is nonempty. -/
theorem resp_greeting (table : List PatientRow) (st : SessionState) (o : Oracles) :
    (handle_greeting table st o).2 ≠ "" := by
  unfold handle_greeting
  dsimp only
  split
  · dsimp only; decide
  · repeat' split
    all_goals first
      | apply resp_lookup
      | (dsimp only; repeat first | decide | apply ne_empty_append)

/-- The greeting handler keeps the stage or moves it along the lookup
path. -/
theorem stage_greeting (table : List PatientRow) (st : SessionState) (o : Oracles) :
    (handle_greeting table st o).1.stage = st.stage ∨
    (handle_greeting table st o).1.stage = "scheduling" ∨
    (handle_greeting table st o).1.stage = "patient_lookup" := by
  cases hg : o.greet with
  | none => left; simp [handle_greeting, hg]
  | some e =>
    by_cases hn : truthy e.name <;> by_cases hd : truthy e.dob <;>
      by_cases hdoc : truthy e.doctor <;>
      simp only [handle_greeting, hg, hn, hd, hdoc, Bool.false_eq_true, if_true,
        if_false, List.append_nil, List.nil_append, List.isEmpty_cons,
        List.isEmpty_nil, Bool.not_false, Bool.not_true, ite_true, ite_false] <;>
      try (left; trivial)
    have hsl := stage_lookup table
      { st with
        stage := "patient_lookup",
        current_patient := { st.current_patient with
          name := e.name, dob := e.dob, doctor := e.doctor, location := e.location } }
    rcases hsl with h | h
    · right; right; exact h
    · right; left; exact h

/-- Every scheduling response is nonempty. -/
theorem resp_sched (slotsFn : String → String → Nat → List String)
    (st : SessionState) (o : Oracles) : (handle_scheduling slotsFn st o).2 ≠ "" := by
  unfold handle_scheduling
  dsimp only
  split
  · dsimp only; decide
  · split <;> (dsimp only; repeat first | decide | apply ne_empty_append)

/-- The scheduling handler never changes the stage. -/
theorem stage_sched (slotsFn : String → String → Nat → List String)
    (st : SessionState) (o : Oracles) :
    (handle_scheduling slotsFn st o).1.stage = st.stage := by
  unfold handle_scheduling
  dsimp only
  split
  · rfl
  · split <;> rfl

/-- Every insurance response is nonempty. -/
theorem resp_insurance (st : SessionState) (o : Oracles) (input : String) :
    (handle_insurance st o input).2 ≠ "" := by
  unfold handle_insurance confirmationSummary
  dsimp only
  split
  · split
    · dsimp only; repeat first | decide | apply ne_empty_append
    · split <;> (dsimp only; repeat first | decide | apply ne_empty_append)
  · dsimp only; decide

/-- The insurance handler keeps the stage or moves it to confirmation. -/
theorem stage_insurance (st : SessionState) (o : Oracles) (input : String) :
    (handle_insurance st o input).1.stage = st.stage ∨
    (handle_insurance st o input).1.stage = "confirmation" := by
  unfold handle_insurance
  dsimp only
  split
  · split
    · right; rfl
    · split
      · right; rfl
      · right; rfl
  · left; rfl

/-- Every confirmation response is nonempty. -/
theorem resp_conf (st : SessionState) (o : Oracles) (input : String)
    (appts : List AppointmentRecord) (rems : List Reminder) :
    (handle_confirmation st o input appts rems).response ≠ "" := by
  unfold handle_confirmation confirm_appointment confirmSuccessText
  dsimp only
  split
  · split
    · dsimp only; decide
    · dsimp only; repeat first | decide | apply ne_empty_append
  · split <;> (dsimp only; decide)

/-- The confirmation handler keeps the stage or moves it to scheduling or
back to greeting. -/
theorem stage_conf (st : SessionState) (o : Oracles) (input : String)
    (appts : List AppointmentRecord) (rems : List Reminder) :
    (handle_confirmation st o input appts rems).state.stage = st.stage ∨
    (handle_confirmation st o input appts rems).state.stage = "scheduling" ∨
    (handle_confirmation st o input appts rems).state.stage = "greeting" := by
  unfold handle_confirmation confirm_appointment
  dsimp only
  split
  · split
    · left; rfl
    · right; right; rfl
  · split
    · right; left; rfl
    · left; rfl

/-- C6 counterexample: at the scheduling stage the input, a superscript
two, passes str.isdigit, so it is intercepted, and int() then raises a
ValueError that nothing catches: the script run aborts with no response
and no next stage — the claimed liveness fails at this (stage, input)
pair. -/
theorem c6_counterexample :
    main_step fallbackPatients constSlots stSched {} "²" [] [] = none := rfl

/-- C6 (amended): for every session whose stage is one of the five
assigned stage strings and every input and extractor outcome, the step
fails to produce a result EXACTLY when the stage is scheduling and the
input is an isdigit-classified token without a base-10 value (the uncaught
ValueError of int()); whenever a result is produced, its response is
nonempty and its next stage is again one of the assigned stages. -/
theorem c6_theorem (table : List PatientRow)
    (slotsFn : String → String → Nat → List String) (st : SessionState)
    (o : Oracles) (input : String) (appts : List AppointmentRecord)
    (rems : List Reminder) (h : st.stage ∈ validStages) :
    (main_step table slotsFn st o input appts rems = none ↔
      (st.stage = "scheduling" ∧ pyIsdigit input = true ∧ pyInt input = none)) ∧
    ∀ res, main_step table slotsFn st o input appts rems = some res →
      res.response ≠ "" ∧ res.state.stage ∈ validStages := by
  by_cases hc : (st.stage == "scheduling" && pyIsdigit input) = true
  · have hst : st.stage = "scheduling" := by
      have := (Bool.and_eq_true _ _).mp hc
      simpa using this.1
    have hdig : pyIsdigit input = true := ((Bool.and_eq_true _ _).mp hc).2
    constructor
    · cases hpi : pyInt input with
      | none =>
        simp only [main_step, hc, if_true, hpi]
        simp [hst, hdig]
      | some n =>
        simp only [main_step, hc, if_true, hpi]
        constructor
        · intro hcontra
          split at hcontra <;> simp at hcontra
        · rintro ⟨-, -, hnone⟩
          exact Option.noConfusion hnone
    · intro res hsome
      simp only [main_step, hc, if_true] at hsome
      cases hpi : pyInt input with
      | none => rw [hpi] at hsome; exact absurd hsome (by simp)
      | some n =>
        rw [hpi] at hsome
        dsimp only at hsome
        split at hsome
        · simp only [Option.some.injEq] at hsome
          subst hsome
          exact ⟨by dsimp only; decide, by simp [validStages]⟩
        · simp only [Option.some.injEq] at hsome
          subst hsome
          refine ⟨by dsimp only; apply ne_empty_append; decide, ?_⟩
          simp [validStages, hst]
  · rw [Bool.not_eq_true] at hc
    have hms := main_step_not_sched table slotsFn st o input appts rems hc
    constructor
    · rw [hms]
      constructor
      · intro hcontra
        exact Option.noConfusion hcontra
      · rintro ⟨hst, hdig, -⟩
        rw [hst, hdig] at hc
        simp at hc
    · intro res hsome
      rw [hms] at hsome
      simp only [Option.some.injEq] at hsome
      subst hsome
      simp only [validStages, List.mem_cons, List.not_mem_nil, or_false] at h
      rcases h with h | h | h | h | h
      · have heq : process_user_input table slotsFn st o input appts rems =
            { state := (handle_greeting table st o).1,
              response := (handle_greeting table st o).2,
              appointments := appts, reminders := rems } := by
          simp [process_user_input, h]
        rw [heq]
        refine ⟨resp_greeting _ _ _, ?_⟩
        rcases stage_greeting table st o with hs | hs | hs <;>
          simp [validStages, hs, h]
      · have heq : process_user_input table slotsFn st o input appts rems =
            { state := (handle_patient_lookup table st).1,
              response := (handle_patient_lookup table st).2,
              appointments := appts, reminders := rems } := by
          simp [process_user_input, h]
        rw [heq]
        refine ⟨resp_lookup _ _, ?_⟩
        rcases stage_lookup table st with hs | hs <;> simp [validStages, hs, h]
      · have heq : process_user_input table slotsFn st o input appts rems =
            { state := (handle_scheduling slotsFn st o).1,
              response := (handle_scheduling slotsFn st o).2,
              appointments := appts, reminders := rems } := by
          simp [process_user_input, h]
        rw [heq]
        refine ⟨resp_sched _ _ _, ?_⟩
        simp [validStages, stage_sched slotsFn st o, h]
      · have heq : process_user_input table slotsFn st o input appts rems =
            { state := (handle_insurance st o input).1,
              response := (handle_insurance st o input).2,
              appointments := appts, reminders := rems } := by
          simp [process_user_input, h]
        rw [heq]
        refine ⟨resp_insurance _ _ _, ?_⟩
        rcases stage_insurance st o input with hs | hs <;> simp [validStages, hs, h]
      · have heq : process_user_input table slotsFn st o input appts rems =
            handle_confirmation st o input appts rems := by
          simp [process_user_input, h]
        rw [heq]
        refine ⟨resp_conf _ _ _ _ _, ?_⟩
        rcases stage_conf st o input appts rems with hs | hs | hs <;>
          simp [validStages, hs, h]

/-- C6 witness: the amended theorem applied to two concrete sessions: a
completing step whose result is nonempty and well-staged, and the
crashing superscript-digit step characterized by the iff. -/
theorem c6_witness :
    (((main_step fallbackPatients constSlots stConf {} "whatever" [] []).getD
        emptyStep).response ≠ "" ∧
      ((main_step fallbackPatients constSlots stConf {} "whatever" [] []).getD
        emptyStep).state.stage ∈ validStages) ∧
    main_step fallbackPatients constSlots stSched {} "²" [] [] = none := by
  constructor
  · exact (c6_theorem fallbackPatients constSlots stConf {} "whatever" [] []
      (by decide)).2
      ((main_step fallbackPatients constSlots stConf {} "whatever" [] []).getD emptyStep)
      rfl
  · exact (c6_theorem fallbackPatients constSlots stSched {} "²" [] []
      (by decide)).1.mpr ⟨rfl, by decide, by decide⟩

/-! ## C7: insurance stage never blocks -/

/-- C7 (as claimed): at the insurance stage with a slot already selected,
every input moves the session to confirmation; a lowercased no-insurance
token stores company "None" (and member id "None"), and a failed
structured extraction stores the raw input as company with member id
"Pending". -/
theorem c7_theorem (table : List PatientRow)
    (slotsFn : String → String → Nat → List String) (st : SessionState)
    (o : Oracles) (input : String) (appts : List AppointmentRecord)
    (rems : List Reminder) (hstage : st.stage = "insurance")
    (hslot : (st.appointment_data.selected_slot).isSome = true) :
    (main_step table slotsFn st o input appts rems).map
      (fun res => res.state.stage) = some "confirmation" ∧
    (strLower input ∈ noInsuranceTokens →
       (main_step table slotsFn st o input appts rems).map
         (fun res => res.state.current_patient.insurance_company) = some (some "None") ∧
       (main_step table slotsFn st o input appts rems).map
         (fun res => res.state.current_patient.member_id) = some (some "None")) ∧
    (strLower input ∉ noInsuranceTokens → o.insurance = none →
       (main_step table slotsFn st o input appts rems).map
         (fun res => res.state.current_patient.insurance_company) = some (some input) ∧
       (main_step table slotsFn st o input appts rems).map
         (fun res => res.state.current_patient.member_id) = some (some "Pending")) := by
  have hmain : main_step table slotsFn st o input appts rems =
      some { state := (handle_insurance st o input).1,
             response := (handle_insurance st o input).2,
             appointments := appts, reminders := rems } := by
    rw [main_step_not_sched table slotsFn st o input appts rems (by simp [hstage])]
    simp [process_user_input, hstage]
  rw [hmain]
  simp only [Option.map_some', Option.some.injEq]
  refine ⟨?_, ?_, ?_⟩
  · simp only [handle_insurance, hslot, if_true]
    split
    · rfl
    · split <;> rfl
  · intro htok
    simp [handle_insurance, hslot, htok]
  · intro htok hins
    simp [handle_insurance, hslot, htok, hins]

/-- A session at the insurance stage with a selected slot. -/
def stIns : SessionState :=
  { stage := "insurance", current_patient := patC, appointment_data := apptC }

/-- C7 witness: the theorem applied to the no-insurance token and to a raw
text with failing extraction. -/
theorem c7_witness :
    ((main_step fallbackPatients constSlots stIns {} "NoNe" [] []).map
        (fun res => res.state.stage) = some "confirmation" ∧
      (main_step fallbackPatients constSlots stIns {} "NoNe" [] []).map
        (fun res => res.state.current_patient.insurance_company) = some (some "None") ∧
      (main_step fallbackPatients constSlots stIns {} "NoNe" [] []).map
        (fun res => res.state.current_patient.member_id) = some (some "None")) ∧
    ((main_step fallbackPatients constSlots stIns {} "Blue Cross" [] []).map
        (fun res => res.state.current_patient.insurance_company) = some (some "Blue Cross") ∧
      (main_step fallbackPatients constSlots stIns {} "Blue Cross" [] []).map
        (fun res => res.state.current_patient.member_id) = some (some "Pending")) := by
  constructor
  · have h := c7_theorem fallbackPatients constSlots stIns {} "NoNe" [] [] rfl (by decide)
    have h2 := h.2.1 (by decide)
    exact ⟨h.1, h2.1, h2.2⟩
  · exact (c7_theorem fallbackPatients constSlots stIns {} "Blue Cross" [] [] rfl
      (by decide)).2.2 (by decide) rfl

/-! ## C8: confirmation independence from notification -/

/-- C8 (as claimed): when the export of the assembled record succeeds and
the confirmation email fails, the booking still completes: the record is
in the appointments store, the stage is reset along the Booked path, and
the success response (not the apology) is returned — a notification
failure never aborts or reverses the confirmed booking. -/
theorem c8_theorem (st : SessionState) (o : Oracles)
    (appts : List AppointmentRecord) (rems : List Reminder) (rs : List Reminder)
    (hexp : o.exportOk = true) (hmail : o.emailOk = false)
    (hset : setup_reminders (mkAppointmentRecord st o.apptId) = some rs) :
    (confirm_appointment st o appts rems).appointments
      = appts ++ [mkAppointmentRecord st o.apptId] ∧
    mkAppointmentRecord st o.apptId ∈ (confirm_appointment st o appts rems).appointments ∧
    (confirm_appointment st o appts rems).state.stage = "greeting" ∧
    (confirm_appointment st o appts rems).response
      = confirmSuccessText (mkAppointmentRecord st o.apptId) := by
  simp [confirm_appointment, hexp, hset]

/-- The oracle bundle of a failing notification channel. -/
def oraclesMailFail : Oracles := { emailOk := false }

/-- C8 witness: the theorem applied to the concrete confirmed session with
a failing email send. -/
theorem c8_witness :
    (confirm_appointment stConf oraclesMailFail [] []).appointments
      = [] ++ [mkAppointmentRecord stConf oraclesMailFail.apptId] ∧
    mkAppointmentRecord stConf oraclesMailFail.apptId
      ∈ (confirm_appointment stConf oraclesMailFail [] []).appointments ∧
    (confirm_appointment stConf oraclesMailFail [] []).state.stage = "greeting" ∧
    (confirm_appointment stConf oraclesMailFail [] []).response
      = confirmSuccessText (mkAppointmentRecord stConf oraclesMailFail.apptId) :=
  c8_theorem stConf oraclesMailFail [] []
    ((setup_reminders (mkAppointmentRecord stConf oraclesMailFail.apptId)).getD [])
    rfl rfl rfl

/-! ## C9: the three reminder descriptors -/

/-- Appointment data whose selected slot starts before 02:00. -/
def apptWrap : Appointment := { apptC with selected_slot := some "01:00 - 01:30" }

/-- A confirmed session whose appointment starts at 01:00. -/
def stWrap : SessionState := { stConf with appointment_data := apptWrap }

/-- The record assembled for the 01:00 appointment on 2025-06-10 (ordinal
day 739412). -/
def recWrap : AppointmentRecord := mkAppointmentRecord stWrap "APTX0000"

/-- C9 counterexample: for the appointment at 01:00 on day 739412, the
third descriptor keeps send_date equal to the appointment day and stores
send_time 23:00 (minute 1380): its persisted send moment is minute
739412*1440+1380, which is NOT the appointment moment minus 120 minutes
(the subtraction of two hours wraps around midnight but the date is not
moved back), so the 2-hour-before offset of the claim fails here. -/
theorem c9_counterexample :
    (setup_reminders recWrap).map (fun l => l.map (fun x => (x.send_date, x.send_time)))
      = some [((739405 : Int), none), (739411, none), (739412, some 1380)] ∧
    ¬ ((739412 : Int) * 1440 + 1380 = (739412 * 1440 + 60) - 120) := by
  constructor
  · rfl
  · decide

/-- C9 (amended): for every confirmed appointment whose date and slot
parse, exactly three reminder descriptors are computed, with the fixed
kinds and required-action texts of the claim; the 7-day and 1-day
descriptors are sent 7 and 1 days before, and the 2-hour descriptor is
sent 120 minutes before the appointment PROVIDED the start time is at
least 02:00 (otherwise the stored clock time wraps past midnight while the
send date stays the appointment day). -/
theorem c9_theorem (r : AppointmentRecord) (ds ts : String) (day startMin : Nat)
    (hd : r.date = some ds) (hpd : parseDate ds = some day)
    (ht : r.time = some ts) (hpm : parseHM (slotStart ts) = some startMin)
    (hstart : 120 ≤ startMin) :
    (setup_reminders r).map (fun l => l.map
        (fun x => (x.kind, x.send_date, x.send_time, x.actions_required)))
      = some
        [("7_day_reminder", (day : Int) - 7, (none : Option Nat),
           "None - General reminder"),
         ("1_day_reminder_with_forms_check", (day : Int) - 1, none,
           "1) Have you filled the forms? 2) Is your visit confirmed? If not, provide cancellation reason"),
         ("2_hour_final_confirmation", (day : Int), some (startMin - 120),
           "1) Have you filled the forms? 2) Confirm visit or provide cancellation reason immediately")] ∧
    (setup_reminders r).map List.length = some 3 := by
  have hlt := parseHM_lt _ _ hpm
  have hmod : (startMin + 1320) % 1440 = startMin - 120 := by omega
  simp [setup_reminders, hd, hpd, ht, hpm, hmod]

/-- The record assembled for the 09:00 slot of the confirmed session. -/
def recC : AppointmentRecord := mkAppointmentRecord stConf "APT1"

/-- C9 witness: the amended theorem applied to the 09:00 appointment on
2025-06-10 (day 739412, start minute 540). -/
theorem c9_witness :
    (setup_reminders recC).map (fun l => l.map
        (fun x => (x.kind, x.send_date, x.send_time, x.actions_required)))
      = some
        [("7_day_reminder", ((739412 : Nat) : Int) - 7, (none : Option Nat),
           "None - General reminder"),
         ("1_day_reminder_with_forms_check", ((739412 : Nat) : Int) - 1, none,
           "1) Have you filled the forms? 2) Is your visit confirmed? If not, provide cancellation reason"),
         ("2_hour_final_confirmation", ((739412 : Nat) : Int), some (540 - 120),
           "1) Have you filled the forms? 2) Confirm visit or provide cancellation reason immediately")] ∧
    (setup_reminders recC).map List.length = some 3 :=
  c9_theorem recC "2025-06-10" "09:00 - 09:30" 739412 540 rfl rfl rfl rfl (by decide)

/-! ## C10: the slot provider never returns an empty list -/

/-- The Excel branch of the slot query finds no matching row (vacuously
true when the Excel frame is absent). -/
def excelMiss (excel : Option (List ScheduleRow)) (doctor date_str : String) : Prop :=
  ∀ df, excel = some df →
    (df.filter (fun row => row.doctor == doctor && row.date == date_str &&
      row.available)).isEmpty = true

/-- The hardcoded-schedule branch finds nothing: for a parsed date, either
the doctor is unknown or the weekday is not in the schedule of the doctor
(vacuously true for an unparseable date, where the raised exception lands
on the default as well). -/
def hardMiss (doctor date_str : String) : Prop :=
  ∀ ord, parseDate date_str = some ord →
    ∀ sched, doctor_schedules.lookup doctor = some sched →
      sched.lookup (dayNameOf ord) = none

/-- Every schedule list stored in the hardcoded dict is nonempty. -/
theorem schedules_nonempty (doc : String) (sched : List (String × List String))
    (day : String) (slots : List String)
    (h1 : doctor_schedules.lookup doc = some sched)
    (h2 : sched.lookup day = some slots) : slots ≠ [] := by
  have hm1 := lookup_mem _ _ _ h1
  simp only [doctor_schedules, List.map_cons, List.map_nil, List.mem_cons,
    List.not_mem_nil, or_false] at hm1
  rcases hm1 with rfl | rfl <;>
    (have hm2 := lookup_mem _ _ _ h2
     simp only [List.map_cons, List.map_nil, List.mem_cons, List.not_mem_nil,
       or_false] at hm2
     rcases hm2 with rfl | rfl | rfl | rfl | rfl <;> decide)

/-- C10 (as claimed): the slot provider never returns an empty list, and
whenever both the Excel lookup and the hardcoded schedule yield nothing
(the fetched Calendly availability is never consulted at all), it returns
the fixed default list. -/
theorem c10_theorem (excel : Option (List ScheduleRow)) (doctor date_str : String)
    (duration : Nat) :
    get_available_slots_with_calendly excel doctor date_str duration ≠ [] ∧
    (excelMiss excel doctor date_str → hardMiss doctor date_str →
      get_available_slots_with_calendly excel doctor date_str duration = defaultSlots) := by
  constructor
  · unfold get_available_slots_with_calendly
    cases excel with
    | some df =>
      dsimp only
      split
      · rename_i hne
        intro hmap
        rw [List.map_eq_nil_iff] at hmap
        simp [hmap] at hne
      · decide
    | none =>
      dsimp only
      cases hpd : parseDate date_str with
      | none => dsimp only; decide
      | some ord =>
        dsimp only
        cases hsch : doctor_schedules.lookup doctor with
        | none => dsimp only; decide
        | some sched =>
          dsimp only
          cases hsl : sched.lookup (dayNameOf ord) with
          | none => dsimp only; decide
          | some slots =>
            dsimp only
            intro hmap
            rw [List.map_eq_nil_iff] at hmap
            exact schedules_nonempty _ _ _ _ hsch hsl hmap
  · intro hex hhard
    unfold get_available_slots_with_calendly
    cases excel with
    | some df =>
      have hdf := hex df rfl
      simp [hdf]
    | none =>
      cases hpd : parseDate date_str with
      | none => simp
      | some ord =>
        cases hsch : doctor_schedules.lookup doctor with
        | none => simp [hsch]
        | some sched =>
          have hday := hhard ord hpd sched hsch
          simp [hsch, hday]

/-- C10 witness: the theorem applied to an unknown doctor, where both the
Excel branch (absent) and the hardcoded branch miss, yielding the default
list. -/
theorem c10_witness :
    get_available_slots_with_calendly none "Dr. Who" "2025-06-14" 30 ≠ [] ∧
    get_available_slots_with_calendly none "Dr. Who" "2025-06-14" 30 = defaultSlots :=
  ⟨(c10_theorem none "Dr. Who" "2025-06-14" 30).1,
   (c10_theorem none "Dr. Who" "2025-06-14" 30).2
     (fun df h => Option.noConfusion h)
     (fun ord hord sched hsched => Option.noConfusion hsched)⟩

end MedAgent
